import Mathlib

/-!
Shallow embedding of the session-token manager of `packages/api-jwt`
(`src/lib/client.ts`) and of the numeric helper of `packages/influxdb`
(`src/lib/utils/common.ts`), together with theorems settling the spec's
claims about them.

Modelling choices:
* JWT signing (library `jsonwebtoken`) is modelled abstractly: a signed
  token is a record holding the signed payload, the signing secret, the
  algorithm, the optional issuer claim, the signing time and its lifetime
  in milliseconds; `jwt.verify` succeeds exactly when the secrets match
  and the token is not expired.  Token-string inputs that are not valid
  signed tokens are the `malformed` case.
* The persistence hooks (`sessionsHooks.create/get/delete`) return `void`
  for `create`/`delete`, so only their presence matters; `get`'s behaviour
  is an optional pure function.  Side effects (hook invocations, the
  user-data fetch, error logging) are recorded in an explicit trace.
* The network fetch of the OAuth2 token endpoint is an oracle returning
  `Except`: an `error` value models a rejected promise, which the source
  (having no try/catch in `authOrRefresh`) lets propagate.
-/

/-- OAuth sub-object of the session payload.  Modelled from the spec:
the type file `types.ts` is not in the sources; the spec requires an
`auth` sub-object with at least `{scope, refresh_token, token_type}`,
the three fields `Client.encrypt` reads. -/
structure AuthInfo where
  scope : String
  refresh_token : String
  token_type : String
  deriving DecidableEq, Repr

/-- Session payload.  Modelled from the spec: `SessionUserData` is an
opaque payload carrying at minimum the `auth` sub-object; the opaque rest
is collapsed into one `user` field. -/
structure SessionUserData where
  auth : AuthInfo
  user : String
  deriving DecidableEq, Repr

/-- The two payload shapes the source ever signs: the full session payload
(access token) and the `{data: {scope, refresh_token, token_type}}`
object built from `payload.auth` (refresh token). -/
inductive SignedPayload where
  | full (p : SessionUserData)
  | refreshOnly (scope refresh_token token_type : String)
  deriving DecidableEq, Repr

/-- `jwt.SignOptions` as used in `encrypt`: algorithm, `expiresIn`
duration string, optional issuer claim. -/
structure SignOptions where
  algorithm : String
  expiresIn : String
  issuer : Option String := none
  deriving DecidableEq, Repr

/-- Lifetime in milliseconds of the duration strings the source uses. -/
def durationMs : String → Nat
  | "4d" => 345600000
  | "7d" => 604800000
  | _ => 0

/-- A signed JWT, modelled abstractly: the data `jwt.sign` commits to. -/
structure Token where
  payload : SignedPayload
  secret : String
  algorithm : String
  issuer : Option String
  iat : Nat
  expMs : Nat
  deriving DecidableEq, Repr

/-- A token string handed to `decrypt`/hooks: either a well-formed signed
token or any other string. -/
inductive TokenInput where
  | signed (t : Token)
  | malformed (s : String)
  deriving DecidableEq, Repr

/-- Model of `jwt.sign(payload, secret, options)` at time `now`. -/
def jwtSign (payload : SignedPayload) (secret : String) (opts : SignOptions)
    (now : Nat) : Token :=
  { payload := payload
    secret := secret
    algorithm := opts.algorithm
    issuer := opts.issuer
    iat := now
    expMs := durationMs opts.expiresIn }

/-- The claims object `jwt.verify` returns: the signed payload plus the
standard `iat`/`exp`/`iss` claims. -/
structure DecodedPayload where
  payload : SignedPayload
  iat : Nat
  exp : Nat
  iss : Option String
  deriving DecidableEq, Repr

/-- Model of `jwt.verify(token, secret)` at time `now`: fails (`none`) on
a malformed token, a secret mismatch, or an expired token. -/
def jwtVerify (token : TokenInput) (secret : String) (now : Nat) :
    Option DecodedPayload :=
  match token with
  | .malformed _ => none
  | .signed t =>
      if t.secret = secret ∧ now < t.iat + t.expMs then
        some { payload := t.payload, iat := t.iat, exp := t.iat + t.expMs,
               iss := t.issuer }
      else none

/-- The kind argument of `decrypt` and of the `get` hook. -/
inductive TokenKind where
  | access_token
  | refresh_token
  deriving DecidableEq, Repr

/-- The record the `create` hook receives and the `get` hook returns. -/
structure StoredSession where
  access_token : TokenInput
  refresh_token : TokenInput
  data : Option SessionUserData
  deriving DecidableEq, Repr

/-- `PersistSessionsHooks`: each hook independently optional.  `create`
and `delete` return `void`, so only their presence is modelled; `get`'s
behaviour is the optional lookup function. -/
structure PersistSessionsHooks where
  create : Bool
  get : Option (TokenInput → TokenKind → Option StoredSession)
  delete : Bool

/-- Observable side effects of the manager's methods, recorded as a trace:
hook invocations, the error log of `authOrRefresh`, and the user-data
fetch of `auth`. -/
inductive Effect where
  | createHook (record : StoredSession)
  | getHook (token : TokenInput) (kind : TokenKind)
  | deleteHook (token : TokenInput)
  | logError
  | fetchData (accessToken : String)
  deriving DecidableEq, Repr

/-- The `Client` of `client.ts`: issuer, signing secret, algorithm and the
optional persistence hooks, all assigned in the constructor. -/
structure Client where
  issuer : Option String
  secret : String
  algorithm : String
  sessionsHooks : Option PersistSessionsHooks

/-- `ClientOptions` of the constructor. -/
structure ClientOptions where
  issuer : Option String
  sessionsHooks : Option PersistSessionsHooks
  algorithm : Option String

/-- The constructor: issuer and hooks from the options, algorithm
defaulting to `HS512`, secret from the server config with the hardcoded
fallback `NEKO-PLUGINS`. -/
def Client.construct (options : ClientOptions) (serverAuthSecret : Option String) :
    Client :=
  { issuer := options.issuer
    sessionsHooks := options.sessionsHooks
    algorithm := options.algorithm.getD "HS512"
    secret := serverAuthSecret.getD "NEKO-PLUGINS" }

/-- JavaScript truthiness of an optional string (`if (this.issuer)`):
present and non-empty. -/
def truthyStr : Option String → Bool
  | some s => !s.isEmpty
  | none => false

/-- The token pair `encrypt` returns. -/
structure TokenPair where
  access_token : Token
  refresh_token : Token
  expires_in : Nat
  token_type : String
  deriving DecidableEq, Repr

/-- `Client.encrypt`: signs the full payload for 4 days (issuer claim
attached when `this.issuer` is truthy), signs the `{data: {scope,
refresh_token, token_type}}` object from `payload.auth` for 7 days with
the same options, invokes the `create` hook when configured, and returns
the pair with `expires_in = Date.now() + 345600000` and
`token_type = "Bearer"`. -/
def Client.encrypt (c : Client) (payload : SessionUserData) (now : Nat) :
    TokenPair × List Effect :=
  let options : SignOptions :=
    { algorithm := c.algorithm, expiresIn := "4d",
      issuer := if truthyStr c.issuer then c.issuer else none }
  let accessToken := jwtSign (.full payload) c.secret options now
  let refresToken :=
    jwtSign (.refreshOnly payload.auth.scope payload.auth.refresh_token
        payload.auth.token_type)
      c.secret { options with expiresIn := "7d" } now
  let effects :=
    match c.sessionsHooks with
    | some hooks =>
        if hooks.create then
          [Effect.createHook
            { access_token := .signed accessToken,
              refresh_token := .signed refresToken, data := some payload }]
        else []
    | none => []
  ({ access_token := accessToken, refresh_token := refresToken,
     expires_in := now + 345600000, token_type := "Bearer" }, effects)

/-- The shape `decrypt` returns on success: `data` plus, depending on the
path, the hook record's two tokens or the single `[type]`-keyed echo of
the input token (the absent key modelled as `none`). -/
structure DecryptResult where
  data : Option DecodedPayload
  access_token : Option TokenInput := none
  refresh_token : Option TokenInput := none
  deriving DecidableEq, Repr

/-- `Client.decrypt`: wraps `jwt.verify` in a `Result`; on verification
error returns `null` at once.  Otherwise, when a `get` hook is configured
it is consulted: a nullish session yields `null`, else the hook record's
tokens are returned with the decoded data.  With no `get` hook the input
token is echoed back keyed by the requested kind. -/
def Client.decrypt (c : Client) (token : TokenInput) (type : TokenKind)
    (now : Nat) : Option DecryptResult × List Effect :=
  match jwtVerify token c.secret now with
  | none => (none, [])
  | some d =>
      match c.sessionsHooks with
      | some hooks =>
          match hooks.get with
          | some g =>
              match g token type with
              | none => (none, [Effect.getHook token type])
              | some session =>
                  (some { data := some d,
                          access_token := some session.access_token,
                          refresh_token := some session.refresh_token },
                   [Effect.getHook token type])
          | none =>
              (some { data := some d,
                      access_token :=
                        if type = .access_token then some token else none,
                      refresh_token :=
                        if type = .refresh_token then some token else none },
               [])
      | none =>
          (some { data := some d,
                  access_token :=
                    if type = .access_token then some token else none,
                  refresh_token :=
                    if type = .refresh_token then some token else none },
           [])

/-- `Client.signOut`: invokes the `delete` hook when configured, then
always returns `true`. -/
def Client.signOut (c : Client) (accessToken : TokenInput) :
    Bool × List Effect :=
  match c.sessionsHooks with
  | some hooks =>
      if hooks.delete then (true, [Effect.deleteHook accessToken])
      else (true, [])
  | none => (true, [])

/-- The provider's token response (`RESTPostOAuth2AccessTokenResult`). -/
structure OAuthTokenResult where
  access_token : String
  refresh_token : String
  token_type : String
  expires_in : Nat
  scope : String
  deriving DecidableEq, Repr

/-- The server auth configuration `authOrRefresh`/`auth` read from the
container: OAuth client id/secret, optional configured redirect, and the
user-data fetch collaborator (`U` the user-data type, nullish results as
`none`). -/
structure ServerAuth (U : Type) where
  id : String
  secret : String
  redirect : Option String
  fetchData : String → Option U

/-- The form-encoded body `authOrRefresh` builds (absent fields `none`). -/
structure FormBody where
  client_id : String
  client_secret : String
  code : Option String := none
  grant_type : Option String := none
  redirect_uri : Option String := none
  refresh_token : Option String := none
  deriving DecidableEq, Repr

/-- The grant type argument of `auth`/`authOrRefresh`. -/
inductive AuthGrantType where
  | code
  | refresh
  deriving DecidableEq, Repr

/-- The request body of `authOrRefresh`: always client id/secret; for
`code` also the code, `grant_type=authorization_code` and the redirect
(configured redirect preferred over the argument); for `refresh` the
refresh token and `grant_type=refresh_token`. -/
def buildFormBody {U : Type} (sa : ServerAuth U) (tokenOrCode : String)
    (grantType : AuthGrantType) (redirectUri : Option String) : FormBody :=
  let data : FormBody := { client_id := sa.id, client_secret := sa.secret }
  match grantType with
  | .code =>
      { data with code := some tokenOrCode,
                  grant_type := some "authorization_code",
                  redirect_uri :=
                    match sa.redirect with
                    | some r => some r
                    | none => redirectUri }
  | .refresh =>
      { data with refresh_token := some tokenOrCode,
                  grant_type := some "refresh_token" }

/-- An HTTP response of the fetch: `ok` status and the parsed JSON body. -/
structure FetchResponse where
  ok : Bool
  json : OAuthTokenResult
  deriving DecidableEq, Repr

/-- `Client.authOrRefresh`: posts the form body via the fetch oracle.  A
rejected fetch (`Except.error`) propagates — the source has no try/catch.
An `ok` response returns its JSON; otherwise the body is logged and the
result is `null`. -/
def Client.authOrRefresh {U : Type} (sa : ServerAuth U)
    (fetchOracle : FormBody → Except String FetchResponse)
    (tokenOrCode : String) (grantType : AuthGrantType)
    (redirectUri : Option String) :
    Except String (Option OAuthTokenResult × List Effect) :=
  let data := buildFormBody sa tokenOrCode grantType redirectUri
  match fetchOracle data with
  | .error e => .error e
  | .ok result =>
      if result.ok then .ok (some result.json, [])
      else .ok (none, [Effect.logError])

/-- `Client.auth`: runs `authOrRefresh`; a nullish result returns `null`
without touching the user-data fetch.  Otherwise `fetchData` is invoked
with the obtained access token (recorded in the trace); a nullish user
yields `null`, else `{auth, user}` is returned. -/
def Client.auth {U : Type} (sa : ServerAuth U)
    (fetchOracle : FormBody → Except String FetchResponse)
    (tokenOrCode : String) (grantType : AuthGrantType)
    (redirectUri : Option String) :
    Except String (Option (OAuthTokenResult × U) × List Effect) :=
  match Client.authOrRefresh sa fetchOracle tokenOrCode grantType redirectUri with
  | .error e => .error e
  | .ok (none, effs) => .ok (none, effs)
  | .ok (some authData, effs) =>
      let effs := effs ++ [Effect.fetchData authData.access_token]
      match sa.fetchData authData.access_token with
      | none => .ok (none, effs)
      | some userData => .ok (some (authData, userData), effs)

/-- A method call seen as a state transformer on the receiver: the bodies
of the `Client` methods contain no assignment to any field of `this`, so
the post-state is the receiver unchanged. -/
def Client.encryptCall (c : Client) (payload : SessionUserData) (now : Nat) :
    (TokenPair × List Effect) × Client :=
  (c.encrypt payload now, c)

/-- `decrypt` as a state transformer on the receiver (no field of `this`
is assigned in its body). -/
def Client.decryptCall (c : Client) (token : TokenInput) (type : TokenKind)
    (now : Nat) : (Option DecryptResult × List Effect) × Client :=
  (c.decrypt token type now, c)

/-- `signOut` as a state transformer on the receiver (no field of `this`
is assigned in its body). -/
def Client.signOutCall (c : Client) (accessToken : TokenInput) :
    (Bool × List Effect) × Client :=
  (c.signOut accessToken, c)

/-- `auth` (with its private helper `authOrRefresh`) as a state
transformer on the receiver: neither body reads or assigns any field of
`this`, so the post-state is the receiver unchanged. -/
def Client.authCall {U : Type} (c : Client) (sa : ServerAuth U)
    (fetchOracle : FormBody → Except String FetchResponse)
    (tokenOrCode : String) (grantType : AuthGrantType)
    (redirectUri : Option String) :
    Except String (Option (OAuthTokenResult × U) × List Effect) × Client :=
  (Client.auth sa fetchOracle tokenOrCode grantType redirectUri, c)

/-- JavaScript number values as far as `tryNumberParse` distinguishes
them: `NaN` or an actual numeric value. -/
inductive JSNumber where
  | nan
  | num (x : ℚ)
  deriving DecidableEq, Repr

/-- `tryNumberParse` of `packages/influxdb` `utils/common.ts`,
parametrised by the host conversion `Number(value)` (`jsNumber`): a
string input is converted and a `NaN` conversion throws a `TypeError`
(the `Except.error` case); any other input (here: `undefined`) is
returned unchanged. -/
def tryNumberParse (jsNumber : String → JSNumber) :
    Option String → Except String (Option JSNumber)
  | some value =>
      match jsNumber value with
      | .nan => .error ("Could not parse " ++ value ++ " to a number")
      | .num x => .ok (some (.num x))
  | none => .ok none

theorem durationMs_4d : durationMs "4d" = 345600000 := rfl

theorem durationMs_7d : durationMs "7d" = 604800000 := rfl

/-- C1 counterexample: with a `get` hook configured that returns a stored
session record for every input, `decrypt` on a token that fails
verification still returns `null`, with an empty effect trace — the hook
is never consulted, contradicting the claim that the call returns the
hook's record with `data = null`. -/
theorem decrypt_bad_token_hook_counterexample :
    (Client.mk none "NEKO-PLUGINS" "HS512"
        (some ⟨false,
          some (fun _ _ => some ⟨.malformed "a", .malformed "r", none⟩),
          false⟩)).decrypt (.malformed "garbage") .access_token 0
      = (none, []) := rfl

/-- C1 (amended): when verification of the token fails, `decrypt` returns
`null` even though a `get` hook is configured, and the hook is not
invoked (empty effect trace): the early `return null` on the decode
`Result` error precedes the hook lookup. -/
theorem decrypt_bad_token_null_hook_unconsulted (c : Client)
    (token : TokenInput) (type : TokenKind) (now : Nat)
    (hooks : PersistSessionsHooks)
    (g : TokenInput → TokenKind → Option StoredSession)
    (_hh : c.sessionsHooks = some hooks) (_hg : hooks.get = some g)
    (hv : jwtVerify token c.secret now = none) :
    c.decrypt token type now = (none, []) := by
  unfold Client.decrypt
  rw [hv]

theorem decrypt_bad_token_null_hook_unconsulted_witness :
    (Client.mk none "s" "HS512"
        (some ⟨false,
          some (fun _ _ => some ⟨.malformed "x", .malformed "y", none⟩),
          false⟩)).decrypt (.malformed "bad") .refresh_token 5
      = (none, []) :=
  decrypt_bad_token_null_hook_unconsulted
    (Client.mk none "s" "HS512"
      (some ⟨false,
        some (fun _ _ => some ⟨.malformed "x", .malformed "y", none⟩),
        false⟩))
    (.malformed "bad") .refresh_token 5
    ⟨false, some (fun _ _ => some ⟨.malformed "x", .malformed "y", none⟩),
      false⟩
    (fun _ _ => some ⟨.malformed "x", .malformed "y", none⟩)
    rfl rfl rfl

/-- C2: with no session hooks configured, `decrypt` of the access token
produced by `encrypt`, requested as kind `access_token` and before the
4-day expiry, yields a non-null result: the decoded data carries the full
original payload (with the `iat`/`exp`/`iss` claims of the signing), and
the `access_token` field echoes back exactly the token passed in. -/
theorem encrypt_decrypt_roundtrip (c : Client) (payload : SessionUserData)
    (t0 t1 : Nat) (hnh : c.sessionsHooks = none)
    (ht : t1 < t0 + 345600000) :
    (c.decrypt (.signed (c.encrypt payload t0).1.access_token)
        .access_token t1).1 =
      some { data := some { payload := .full payload, iat := t0,
                            exp := t0 + 345600000,
                            iss := if truthyStr c.issuer then c.issuer
                                   else none },
             access_token :=
               some (.signed (c.encrypt payload t0).1.access_token),
             refresh_token := none } := by
  unfold Client.decrypt Client.encrypt jwtVerify jwtSign
  simp [hnh, durationMs_4d, ht]

theorem encrypt_decrypt_roundtrip_witness :
    ((Client.mk none "s" "HS512" none).sessionsHooks = none) ∧
    1 < 0 + 345600000 ∧
    (((Client.mk none "s" "HS512" none).decrypt
        (.signed (((Client.mk none "s" "HS512" none).encrypt
            ⟨⟨"sc", "rt", "tt"⟩, "u"⟩ 0).1.access_token))
        .access_token 1).1 =
      some { data := some { payload := .full ⟨⟨"sc", "rt", "tt"⟩, "u"⟩,
                            iat := 0, exp := 0 + 345600000,
                            iss := if truthyStr none then none else none },
             access_token :=
               some (.signed (((Client.mk none "s" "HS512" none).encrypt
                   ⟨⟨"sc", "rt", "tt"⟩, "u"⟩ 0).1.access_token)),
             refresh_token := none }) :=
  ⟨rfl, by decide,
    encrypt_decrypt_roundtrip (Client.mk none "s" "HS512" none)
      ⟨⟨"sc", "rt", "tt"⟩, "u"⟩ 0 1 rfl (by decide)⟩

/-- C3 counterexample: a network-level failure of the token-endpoint
fetch (a rejected promise, the `Except.error` case of the oracle) is not
swallowed by `authOrRefresh`: with no try/catch in its body the rejection
propagates to the caller instead of being logged and turned into `null`,
contradicting the claim for provider/network failures. -/
theorem authOrRefresh_rejection_counterexample :
    Client.authOrRefresh (U := Unit) ⟨"id", "sec", none, fun _ => none⟩
      (fun _ => .error "network failure") "code" .code none
      = .error "network failure" := rfl

/-- C3 (amended): when the token-endpoint exchange completes with a
non-success HTTP response, `authOrRefresh` logs the error body (one
`logError` effect) and returns `null` without throwing. -/
theorem authOrRefresh_http_failure_logs_null {U : Type} (sa : ServerAuth U)
    (fetchOracle : FormBody → Except String FetchResponse)
    (tokenOrCode : String) (grantType : AuthGrantType)
    (redirectUri : Option String) (resp : FetchResponse)
    (hf : fetchOracle (buildFormBody sa tokenOrCode grantType redirectUri)
            = .ok resp)
    (hok : resp.ok = false) :
    Client.authOrRefresh sa fetchOracle tokenOrCode grantType redirectUri =
      .ok (none, [Effect.logError]) := by
  unfold Client.authOrRefresh
  simp [hf, hok]

theorem authOrRefresh_http_failure_logs_null_witness :
    ((fun _ => Except.ok ⟨false, ⟨"at", "rt", "Bearer", 0, "sc"⟩⟩ :
        FormBody → Except String FetchResponse)
      (buildFormBody (U := Unit) ⟨"id", "sec", none, fun _ => none⟩
        "c" .code none)
      = .ok ⟨false, ⟨"at", "rt", "Bearer", 0, "sc"⟩⟩) ∧
    ((⟨false, ⟨"at", "rt", "Bearer", 0, "sc"⟩⟩ : FetchResponse).ok = false) ∧
    (Client.authOrRefresh (U := Unit) ⟨"id", "sec", none, fun _ => none⟩
        (fun _ => .ok ⟨false, ⟨"at", "rt", "Bearer", 0, "sc"⟩⟩)
        "c" .code none
      = .ok (none, [Effect.logError])) :=
  ⟨rfl, rfl,
    authOrRefresh_http_failure_logs_null ⟨"id", "sec", none, fun _ => none⟩
      (fun _ => .ok ⟨false, ⟨"at", "rt", "Bearer", 0, "sc"⟩⟩)
      "c" .code none ⟨false, ⟨"at", "rt", "Bearer", 0, "sc"⟩⟩ rfl rfl⟩

/-- C4: whenever verification of the token against the configured secret
fails — malformed token, wrong secret, or expired — `decrypt` returns
`null`, for either requested kind.  The embedding is a total function:
the `Result`-wrapped verify never lets the failure escape as an
exception. -/
theorem decrypt_verify_failure_null (c : Client) (token : TokenInput)
    (type : TokenKind) (now : Nat)
    (hv : jwtVerify token c.secret now = none) :
    (c.decrypt token type now).1 = none := by
  unfold Client.decrypt
  rw [hv]

theorem decrypt_verify_failure_null_witness :
    (jwtVerify (.malformed "not-a-jwt")
        (Client.mk none "NEKO-PLUGINS" "HS512" none).secret 0 = none) ∧
    (((Client.mk none "NEKO-PLUGINS" "HS512" none).decrypt
        (.malformed "not-a-jwt") .access_token 0).1 = none) :=
  ⟨rfl,
    decrypt_verify_failure_null (Client.mk none "NEKO-PLUGINS" "HS512" none)
      (.malformed "not-a-jwt") .access_token 0 rfl⟩

/-- C5: for every payload and invocation time, the pair returned by
`encrypt` has `expires_in` equal to the invocation time plus exactly
345600000 ms and `token_type` equal to the string `Bearer`. -/
theorem encrypt_expires_in_bearer (c : Client) (payload : SessionUserData)
    (now : Nat) :
    (c.encrypt payload now).1.expires_in = now + 345600000 ∧
    (c.encrypt payload now).1.token_type = "Bearer" :=
  ⟨rfl, rfl⟩

/-- C6: `encrypt` signs the access token over the full payload with the
4-day lifetime, attaching the issuer claim exactly when the configured
issuer is truthy (present and non-empty); the refresh token is signed
over only the `{scope, refresh_token, token_type}` triple extracted from
`payload.auth`, with the 7-day lifetime and the same issuer and algorithm
as the access token. -/
theorem encrypt_token_shapes (c : Client) (payload : SessionUserData)
    (now : Nat) :
    (c.encrypt payload now).1.access_token.payload = .full payload ∧
    (c.encrypt payload now).1.access_token.expMs = durationMs "4d" ∧
    (c.encrypt payload now).1.access_token.issuer =
      (if truthyStr c.issuer then c.issuer else none) ∧
    (c.encrypt payload now).1.refresh_token.payload =
      .refreshOnly payload.auth.scope payload.auth.refresh_token
        payload.auth.token_type ∧
    (c.encrypt payload now).1.refresh_token.expMs = durationMs "7d" ∧
    (c.encrypt payload now).1.refresh_token.issuer =
      (c.encrypt payload now).1.access_token.issuer ∧
    (c.encrypt payload now).1.access_token.algorithm = c.algorithm ∧
    (c.encrypt payload now).1.refresh_token.algorithm = c.algorithm :=
  ⟨rfl, rfl, rfl, rfl, rfl, rfl, rfl, rfl⟩

/-- C7: when the token exchange yields a nullish result, `auth` returns
`null` with the exchange's effect trace unchanged, and that trace never
contains a user-data fetch: the `fetchData` collaborator is invoked only
after a non-null exchange. -/
theorem auth_null_exchange_no_user_fetch {U : Type} (sa : ServerAuth U)
    (fetchOracle : FormBody → Except String FetchResponse)
    (tokenOrCode : String) (grantType : AuthGrantType)
    (redirectUri : Option String) (effs : List Effect)
    (hn : Client.authOrRefresh sa fetchOracle tokenOrCode grantType
            redirectUri = .ok (none, effs)) :
    Client.auth sa fetchOracle tokenOrCode grantType redirectUri =
      .ok (none, effs) ∧
    ∀ s, Effect.fetchData s ∉ effs := by
  constructor
  · unfold Client.auth
    rw [hn]
  · have heffs : effs = [] ∨ effs = [Effect.logError] := by
      unfold Client.authOrRefresh at hn
      rcases hfo : fetchOracle
          (buildFormBody sa tokenOrCode grantType redirectUri) with e | r
      · simp [hfo] at hn
      · rcases hr : r.ok with _ | _
        · simp [hfo, hr] at hn
          right
          exact hn.symm
        · simp [hfo, hr] at hn
    intro s
    rcases heffs with h | h <;> simp [h]

theorem auth_null_exchange_no_user_fetch_witness :
    (Client.authOrRefresh (U := Unit) ⟨"id", "sec", none, fun _ => none⟩
        (fun _ => .ok ⟨false, ⟨"at", "rt", "Bearer", 0, "sc"⟩⟩)
        "c" .code none = .ok (none, [Effect.logError])) ∧
    (Client.auth (U := Unit) ⟨"id", "sec", none, fun _ => none⟩
        (fun _ => .ok ⟨false, ⟨"at", "rt", "Bearer", 0, "sc"⟩⟩)
        "c" .code none = .ok (none, [Effect.logError])) ∧
    ∀ s, Effect.fetchData s ∉ [Effect.logError] :=
  ⟨rfl,
    (auth_null_exchange_no_user_fetch (U := Unit)
      ⟨"id", "sec", none, fun _ => none⟩
      (fun _ => .ok ⟨false, ⟨"at", "rt", "Bearer", 0, "sc"⟩⟩)
      "c" .code none [Effect.logError] rfl).1,
    (auth_null_exchange_no_user_fetch (U := Unit)
      ⟨"id", "sec", none, fun _ => none⟩
      (fun _ => .ok ⟨false, ⟨"at", "rt", "Bearer", 0, "sc"⟩⟩)
      "c" .code none [Effect.logError] rfl).2⟩

/-- C8: `signOut` always returns `true`, and its effect trace is exactly
one `delete`-hook invocation with the given access token when a `delete`
hook is configured, and empty (no action) otherwise. -/
theorem signOut_true_delete_once (c : Client) (accessToken : TokenInput) :
    (c.signOut accessToken).1 = true ∧
    (c.signOut accessToken).2 =
      (match c.sessionsHooks with
       | some hooks =>
           if hooks.delete then [Effect.deleteHook accessToken] else []
       | none => []) := by
  unfold Client.signOut
  rcases c.sessionsHooks with _ | hooks
  · exact ⟨rfl, rfl⟩
  · rcases hd : hooks.delete <;> simp [hd]

/-- C9: the configuration fields (issuer, signing secret, algorithm,
session hooks) are assigned in the constructor from the options and the
server config, and every method call leaves the receiver unchanged: none
of `encrypt`, `decrypt`, `signOut`, `auth`/`authOrRefresh` assigns any
field of `this`. -/
theorem client_config_immutable {U : Type} (c : Client)
    (payload : SessionUserData) (token : TokenInput) (type : TokenKind)
    (now : Nat) (accessToken : TokenInput) (sa : ServerAuth U)
    (fetchOracle : FormBody → Except String FetchResponse)
    (tokenOrCode : String) (grantType : AuthGrantType)
    (redirectUri : Option String) (options : ClientOptions)
    (serverAuthSecret : Option String) :
    (c.encryptCall payload now).2 = c ∧
    (c.decryptCall token type now).2 = c ∧
    (c.signOutCall accessToken).2 = c ∧
    (c.authCall sa fetchOracle tokenOrCode grantType redirectUri).2 = c ∧
    (Client.construct options serverAuthSecret).issuer = options.issuer ∧
    (Client.construct options serverAuthSecret).sessionsHooks =
      options.sessionsHooks ∧
    (Client.construct options serverAuthSecret).algorithm =
      options.algorithm.getD "HS512" ∧
    (Client.construct options serverAuthSecret).secret =
      serverAuthSecret.getD "NEKO-PLUGINS" :=
  ⟨rfl, rfl, rfl, rfl, rfl, rfl, rfl, rfl⟩

/-- C10: `tryNumberParse` returns its input unchanged on `undefined`; on
a string whose conversion is a number it returns that number; it throws
the `TypeError` exactly when the conversion is `NaN`; consequently a
non-exceptional return is never `NaN`. -/
theorem tryNumberParse_total_spec (jsNumber : String → JSNumber)
    (s : String) (v : Option String) (j : JSNumber) :
    (tryNumberParse jsNumber none = .ok none) ∧
    (∀ x : ℚ, jsNumber s = .num x →
      tryNumberParse jsNumber (some s) = .ok (some (.num x))) ∧
    ((∃ e, tryNumberParse jsNumber (some s) = .error e) ↔
      jsNumber s = .nan) ∧
    (tryNumberParse jsNumber v = .ok (some j) → j ≠ .nan) := by
  refine ⟨rfl, ?_, ?_, ?_⟩
  · intro x hx
    simp [tryNumberParse, hx]
  · constructor
    · rintro ⟨e, he⟩
      rcases hs : jsNumber s with _ | x
      · rfl
      · simp [tryNumberParse, hs] at he
    · intro hnan
      refine ⟨"Could not parse " ++ s ++ " to a number", ?_⟩
      simp [tryNumberParse, hnan]
  · intro hv
    rcases v with _ | s₀
    · simp [tryNumberParse] at hv
    · rcases hs : jsNumber s₀ with _ | x
      · simp [tryNumberParse, hs] at hv
      · simp [tryNumberParse, hs] at hv
        intro hj
        rw [hj] at hv
        simp at hv

theorem tryNumberParse_total_spec_witness :
    ((fun _ => JSNumber.num 7 : String → JSNumber) "42" = .num 7) ∧
    (tryNumberParse (fun _ => JSNumber.num 7) (some "42")
      = .ok (some (.num 7))) :=
  ⟨rfl,
    (tryNumberParse_total_spec (fun _ => JSNumber.num 7) "42" none .nan).2.1
      7 rfl⟩
